import Mathlib

/-!
Shallow embedding of the steelagent repository (FastAPI server, demo
fallback table, RAG agent pipeline, ingestion batch) and proofs of the
spec claims about it.

Source files embedded:
- src/backend/server.py : DEMO_RESPONSES, get_demo_response, the
  /api/chat and /health endpoints, DEMO_MODE.
- src/backend/agent.py  : retrieve, generate, run_agent, module init.
- src/backend/ingest.py : ingest_data.

External services (the vector store's similarity search and the language
model) are parameters of the embedded functions; Python exceptions are
modelled with Except, and the handful of dynamically typed values the
server manipulates with a small PyVal type.
-/

namespace SteelAgent

/-- Python `needle in haystack` on strings, on explicit character lists:
true iff `needle` occurs as a contiguous substring of `haystack`
(the empty needle always matches). -/
def substrMatch (needle : List Char) : List Char → Bool
  | [] => needle.isPrefixOf ([] : List Char)
  | c :: rest => needle.isPrefixOf (c :: rest) || substrMatch needle rest

/-- Python `s.lower()` as applied to the query in get_demo_response,
as a list of characters. -/
def lowerChars (s : String) : List Char :=
  s.data.map Char.toLower

/-- A source citation: the pydantic `Source` model of server.py
(fields ref, document, page, content_preview, all strings). -/
structure Source where
  ref : String
  document : String
  page : String
  content_preview : String
deriving DecidableEq, Repr

/-- One entry of the DEMO_RESPONSES dict: its key, its "query_match"
keyword list (empty for the "default" entry, which has none), its
"response" text and its "sources" list. -/
structure DemoEntry where
  key : String
  query_match : List String
  response : String
  sources : List Source
deriving DecidableEq, Repr

/-- Entry "yield strength" of DEMO_RESPONSES in src/backend/server.py. -/
def yieldStrengthEntry : DemoEntry where
  key := "yield strength"
  query_match := ["yield strength", "a106", "grade b"]
  response := "According to ASTM A106 [1], Grade B seamless carbon steel pipe has:\n\n• **Minimum Yield Strength**: 35 ksi (241 MPa)\n• **Minimum Tensile Strength**: 60 ksi (415 MPa)\n• **Minimum Elongation**: 30%\n\nThis grade is commonly used for high-temperature service piping in refineries and power plants, with a maximum service temperature of approximately 1000°F (538°C)."
  sources := [
    { ref := "[1]", document := "ASTM_A106.pdf", page := "3", content_preview := "Table 1 - Tensile Requirements: Grade B - Tensile strength, min, ksi [MPa]: 60 [415]. Yield strength, min, ksi [MPa]: 35 [240]." },
    { ref := "[2]", document := "ASTM_A106.pdf", page := "5", content_preview := "Chemical Composition - Grade B: Carbon max 0.30%, Manganese 0.29-1.06%, Phosphorus max 0.035%, Sulfur max 0.035%." }
  ]

/-- Entry "nace" of DEMO_RESPONSES in src/backend/server.py. -/
def naceEntry : DemoEntry where
  key := "nace"
  query_match := ["nace", "4140", "sour", "h2s", "mr0175"]
  response := "AISI 4140 steel can meet NACE MR0175/ISO 15156 requirements for sour service, but **only with proper heat treatment** [1].\n\n**Key Requirements:**\n• Maximum hardness: **22 HRC** (248 HBW)\n• Heat treatment: Normalized & tempered, or Q&T with minimum tempering at 1150°F\n\n**Warning:** In the standard Q&T condition (400°F temper), 4140 typically exceeds 50 HRC and is **NOT compliant** for sour service [2].\n\n**For Compliance:**\n1. Specify tempering temperature ≥1150°F\n2. Verify hardness testing per NACE requirements\n3. Document heat treatment records"
  sources := [
    { ref := "[1]", document := "NACE_MR0175_ISO15156.pdf", page := "12", content_preview := "Table A.2 - Low-alloy steels: Maximum hardness 22 HRC. Materials shall be in the quenched and tempered, normalized and tempered, or normalized condition." },
    { ref := "[2]", document := "AISI_4140_DataSheet.pdf", page := "2", content_preview := "Mechanical Properties - Quenched & Tempered at 400°F: Hardness 54 HRC, Tensile 280 ksi. NOT suitable for sour service without re-tempering." }
  ]

/-- Entry "compare" of DEMO_RESPONSES in src/backend/server.py. -/
def compareEntry : DemoEntry where
  key := "compare"
  query_match := ["compare", "a53", "a106", "difference", "vs"]
  response := "**ASTM A106 vs A53 Comparison for High-Temperature Service:**\n\n| Property | A106 | A53 |\n|----------|------|-----|\n| **Primary Use** | High-temp service | General purpose |\n| **Max Temp** | 1000°F | ~750°F |\n| **Manufacturing** | Seamless only | Seamless or ERW |\n| **Chemistry Control** | Stricter | Standard |\n| **P & S Limits** | 0.035% max | 0.05% max |\n\n**Recommendation:** For refinery process piping, power plant steam lines, and heat exchangers above 750°F, **ASTM A106 Grade B** is the industry standard [1][2].\n\nA53 is acceptable for lower-temperature applications like utility lines, structural supports, and water/gas distribution."
  sources := [
    { ref := "[1]", document := "ASTM_A106.pdf", page := "1", content_preview := "Scope: This specification covers seamless carbon steel pipe for high-temperature service." },
    { ref := "[2]", document := "ASTM_A53.pdf", page := "1", content_preview := "Scope: This specification covers seamless and welded black and hot-dipped galvanized steel pipe for ordinary uses." },
    { ref := "[3]", document := "ASME_B31.3_TableA1.pdf", page := "45", content_preview := "Allowable Stress Values - A106 Grade B is listed with stress values up to 1000°F. A53 Grade B limited to lower temperatures." }
  ]

/-- Entry "hardness" of DEMO_RESPONSES in src/backend/server.py. -/
def hardnessEntry : DemoEntry where
  key := "hardness"
  query_match := ["hardness", "sour service", "maximum", "limit", "hrc"]
  response := "Per **NACE MR0175/ISO 15156**, the maximum allowable hardness for carbon and low-alloy steels in sour (H2S) service is [1]:\n\n• **22 HRC** (Rockwell C)\n• **248 HBW** (Brinell)\n• **250 HV** (Vickers)\n\n**When This Applies:**\n• H2S partial pressure > 0.05 psi (0.3 kPa)\n• Aqueous environment present\n• pH typically 3.5 - 6.5\n\n**Critical Notes:**\n• Weld HAZ must also meet hardness limits\n• Post-weld heat treatment often required\n• Hardness testing per ASTM E18/E10 required"
  sources := [
    { ref := "[1]", document := "NACE_MR0175_ISO15156-2.pdf", page := "8", content_preview := "Section 7.2 - Hardness: The maximum hardness of carbon steel and low-alloy steel shall not exceed 22 HRC." },
    { ref := "[2]", document := "NACE_MR0175_ISO15156-2.pdf", page := "15", content_preview := "Table 1 - H2S limits: For SSC Region 0, partial pressure of H2S > 0.05 psi requires compliance with hardness and other requirements." }
  ]

/-- Entry "a333" of DEMO_RESPONSES in src/backend/server.py. -/
def a333Entry : DemoEntry where
  key := "a333"
  query_match := ["a333", "grade 6", "low temperature", "cryogenic"]
  response := "**ASTM A333 Grade 6** is the most common carbon steel for low-temperature service [1]:\n\n**Mechanical Properties:**\n• Yield Strength: 35 ksi min\n• Tensile Strength: 60 ksi min\n• Minimum Service Temp: **-50°F (-46°C)**\n\n**Key Requirements:**\n• Charpy impact testing at -50°F required\n• 15 ft-lb minimum absorbed energy\n• Chemistry similar to A106 Grade B\n\n**Common Applications:**\n• LNG facilities\n• Cryogenic piping\n• Cold climate pipelines\n• Refrigeration systems\n\nFor temperatures below -50°F, consider A333 Grade 3 (3.5% Ni) rated to -150°F."
  sources := [
    { ref := "[1]", document := "ASTM_A333.pdf", page := "2", content_preview := "Table 1 - Grade 6: Min tensile 60 ksi, min yield 35 ksi. Impact test temperature -50°F." },
    { ref := "[2]", document := "ASTM_A333.pdf", page := "4", content_preview := "Section 6 - Impact Requirements: Charpy V-notch specimens shall exhibit minimum 15 ft-lbf at specified test temperature." }
  ]

/-- Entry "default" of DEMO_RESPONSES in src/backend/server.py (no
"query_match" key; `data.get` yields the empty list for it). -/
def defaultEntry : DemoEntry where
  key := "default"
  query_match := []
  response := "I found relevant information in the steel specifications database.\n\nBased on industry standards including ASTM A106, A53, A333, NACE MR0175, and API 5L, here\x27s what I can tell you:\n\nFor specific material properties, compliance requirements, or comparison questions, please try queries like:\n• \"What is the yield strength of A106 Grade B?\"\n• \"Does 4140 steel meet NACE MR0175?\"\n• \"Compare A53 and A106 for high-temperature service\"\n• \"Maximum hardness for sour service?\"\n\nI have detailed specifications for carbon steel pipe, low-alloy steels, and sour service requirements."
  sources := [
    { ref := "[1]", document := "Steel_Specifications_Index.pdf", page := "1", content_preview := "This knowledge base contains ASTM, API, ASME, and NACE standards for steel materials used in oil & gas and industrial applications." }
  ]

/-- The DEMO_RESPONSES table, in Python dict insertion order. -/
def DEMO_RESPONSES : List DemoEntry :=
  [yieldStrengthEntry, naceEntry, compareEntry, hardnessEntry, a333Entry, defaultEntry]

/-- The pair get_demo_response builds: the entry's "response" and
"sources" values. -/
structure DemoResult where
  response : String
  sources : List Source
deriving DecidableEq, Repr

/-- get_demo_response of src/backend/server.py: lowercase the query,
scan DEMO_RESPONSES in order skipping the "default" key, return the
response/sources of the first entry one of whose query_match keywords
occurs in the lowered query; fall back to the "default" entry. -/
def get_demo_response (query : String) : DemoResult :=
  let query_lower := lowerChars query
  match DEMO_RESPONSES.find?
      (fun e => e.key != "default" &&
        e.query_match.any (fun keyword => substrMatch keyword.data query_lower)) with
  | some e => ⟨e.response, e.sources⟩
  | none => ⟨defaultEntry.response, defaultEntry.sources⟩

/-! ### Dynamically typed values handled by the chat endpoint

The chat endpoint subscripts whatever the response-producing function
returned (`result["response"]`, `result["sources"]`) without knowing its
type: get_demo_response returns a dict, run_agent returns a plain string.
PyVal covers the values that can flow there; getItem mirrors Python `[]`
with a string key, raising TypeError on non-dicts. -/

/-- A Python value reaching the chat endpoint: a string, a list, or a
string-keyed dict. -/
inductive PyVal where
  | str (s : String)
  | list (xs : List PyVal)
  | dict (fields : List (String × PyVal))
deriving Repr

/-- Python `v[k]` for a string key `k`: a KeyError on a dict without the
key, a TypeError on a string or a list (string/list indices must be
integers). The error string is the str(e) the endpoint would surface. -/
def PyVal.getItem : PyVal → String → Except String PyVal
  | .str _, _ => .error "string indices must be integers"
  | .list _, _ => .error "list indices must be integers, not str"
  | .dict fields, k =>
    match fields.find? (fun p => p.1 == k) with
    | some p => .ok p.2
    | none => .error ("\x27" ++ k ++ "\x27")

/-- Python iteration `for s in v`: a list yields its elements, a string
its characters, a dict its keys. -/
def PyVal.iterate : PyVal → List PyVal
  | .str s => s.data.map (fun c => .str (String.singleton c))
  | .list xs => xs
  | .dict fields => fields.map (fun p => .str p.1)

/-- `Source(**s)` of the chat endpoint: `s` must be a dict carrying the
four declared fields as strings, otherwise pydantic validation (or the
`**` unpacking) raises. -/
def parseSource (v : PyVal) : Except String Source :=
  match v with
  | .dict fields =>
    let field (k : String) : Except String String :=
      match fields.find? (fun p => p.1 == k) with
      | some (_, .str s) => .ok s
      | some _ => .error ("validation error for Source: " ++ k)
      | none => .error ("validation error for Source: " ++ k ++ " field required")
    do
      let r ← field "ref"
      let d ← field "document"
      let p ← field "page"
      let c ← field "content_preview"
      pure ⟨r, d, p, c⟩
  | _ => .error "argument after ** must be a mapping"

/-- The `response` field of `ChatResponse(...)`: pydantic validates it is
a string. -/
def expectStr : PyVal → Except String String
  | .str s => .ok s
  | _ => .error "validation error for ChatResponse: response"

/-- The successful chat body, the pydantic ChatResponse model:
`{response, sources}`. -/
structure ChatOk where
  response : String
  sources : List Source
deriving DecidableEq, Repr

/-- An HTTP outcome of an endpoint: a 200 with a chat body, or an error
status (500 internal, 422 validation) with a detail string. -/
inductive HttpResult where
  | ok (body : ChatOk)
  | error (status : Nat) (detail : String)
deriving DecidableEq, Repr

/-- The try-block of the chat endpoint after `result` is obtained:
`ChatResponse(response=result["response"], sources=[Source(**s) for s in
result["sources"]])`, with Python's left-to-right evaluation. -/
def chatBody (result : PyVal) : Except String ChatOk := do
  let respV ← result.getItem "response"
  let srcsV ← result.getItem "sources"
  let sources ← (srcsV.iterate).mapM parseSource
  let response ← expectStr respV
  pure ⟨response, sources⟩

/-- The chat endpoint around an arbitrary response-producing function:
run it on the request's query, build the ChatResponse from its result,
and convert any exception, in one try/except, into an HTTP 500 whose
detail is str(e). -/
def chatWith (producer : String → Except String PyVal) (query : String) :
    HttpResult :=
  match (do chatBody (← producer query) : Except String ChatOk) with
  | .ok body => .ok body
  | .error e => .error 500 e

/-! ### Environment, demo mode, module initialization -/

/-- The two credential environment variables read at process start;
`none` models an absent variable, `some s` one set to `s`. -/
structure Env where
  google : Option String
  pinecone : Option String
deriving DecidableEq, Repr

/-- Python truthiness of an `os.getenv` result: `None` and the empty
string are falsy, every other string truthy. -/
def pyTruthy : Option String → Bool
  | none => false
  | some s => !(s == "")

/-- server.py: `DEMO_MODE = not os.getenv("GOOGLE_API_KEY") or not
os.getenv("PINECONE_API_KEY")`, fixed at process start. -/
def DEMO_MODE (env : Env) : Bool :=
  !pyTruthy env.google || !pyTruthy env.pinecone

/-- agent.py module initialization: reads GOOGLE_API_KEY and raises
`ValueError("GOOGLE_API_KEY missing")` when it is falsy. -/
def agentModuleInit (env : Env) : Except String Unit :=
  if !pyTruthy env.google then .error "GOOGLE_API_KEY missing" else .ok ()

/-- server.py: `if not DEMO_MODE: from backend.agent import run_agent` —
the agent module is imported only outside demo mode. -/
def serverImportsAgent (env : Env) : Bool :=
  !DEMO_MODE env

/-- Process start of the server: importing server.py triggers the agent
module initialization exactly when serverImportsAgent. -/
def serverModuleInit (env : Env) : Except String Unit :=
  if serverImportsAgent env then agentModuleInit env else .ok ()

/-- The pydantic HealthResponse model: status, version (default
"1.0.0"), mode. -/
structure HealthResponse where
  status : String
  version : String
  mode : String
deriving DecidableEq, Repr

/-- The GET /health endpoint: `HealthResponse(status="ok", mode="demo"
if DEMO_MODE else "production")`, always an HTTP 200. -/
def health (env : Env) : HealthResponse :=
  ⟨"ok", "1.0.0", if DEMO_MODE env then "demo" else "production"⟩

/-! ### The RAG agent pipeline (src/backend/agent.py)

The vector store and the language model are external services: the
embedded pipeline takes `search` (similarity_search: query and k to the
ranked passages) and `llm` (prompt to completion content) as parameters.
Messages are modelled by their content strings. -/

/-- A retrieved document as the pipeline sees it: its page_content
text. -/
structure Doc where
  page_content : String
deriving DecidableEq, Repr

/-- The AgentState TypedDict: the message sequence and the retrieved
context. -/
structure AgentState where
  messages : List String
  context : String
deriving DecidableEq, Repr

/-- The partial state update returned by the retrieve node:
`{"context": context}`. -/
structure RetrieveUpdate where
  context : String
deriving DecidableEq, Repr

/-- The partial state update returned by the generate node:
`{"messages": [response]}`. -/
structure GenerateUpdate where
  messages : List String
deriving DecidableEq, Repr

/-- The retrieve node: take the last message's content
(`messages[-1]`, an IndexError on an empty list), run
`similarity_search(last_message, k=5)`, and join the retrieved
passages' page_content with a blank line. -/
def retrieve (search : String → Nat → List Doc) (state : AgentState) :
    Except String RetrieveUpdate :=
  match state.messages.getLast? with
  | none => .error "list index out of range"
  | some last_message =>
    let docs := search last_message 5
    let context := String.intercalate "\n\n" (docs.map Doc.page_content)
    .ok ⟨context⟩

/-- The f-string prompt of the generate node, with the context and the
question spliced in (the literal keeps the source's indentation and
trailing spaces). -/
def promptFor (context question : String) : String :=
  "You are an expert material science and steel engineer. \n    Use the following pieces of retrieved context to answer the question. \n    If you don\x27t know the answer, say that you don\x27t know. \n    Use technical language but be concise.\n    \n    Context:\n    "
    ++ context
    ++ "\n    \n    Question: "
    ++ question
    ++ "\n    "

/-- The generate node: take the last message as the question
(`messages[-1]`, an IndexError on an empty list), build the prompt from
the state's context and the question, make one llm call, and return its
completion as the new message list. -/
def generate (llm : String → String) (state : AgentState) :
    Except String GenerateUpdate :=
  match state.messages.getLast? with
  | none => .error "list index out of range"
  | some question =>
    let response := llm (promptFor state.context question)
    .ok ⟨[response]⟩

/-- run_agent: start from `{"messages": [HumanMessage(query)]}` (the
context channel still unset, modelled empty), run the compiled
retrieve → generate → END graph merging each node's partial update
(the plain `Sequence` messages channel is last-value: generate's list
replaces it), and return `result["messages"][-1].content`. -/
def run_agent (search : String → Nat → List Doc) (llm : String → String)
    (query : String) : Except String String := do
  let s0 : AgentState := ⟨[query], ""⟩
  let u1 ← retrieve search s0
  let s1 : AgentState := ⟨s0.messages, u1.context⟩
  let u2 ← generate llm s1
  let s2 : AgentState := ⟨u2.messages, s1.context⟩
  match s2.messages.getLast? with
  | none => .error "list index out of range"
  | some content => .ok content

/-! ### The full /api/chat endpoint -/

/-- FastAPI parsing of the request body into QueryRequest: the body must
be a JSON object with a string field "query"; anything else is an HTTP
422 validation error. -/
def parseQueryRequest : PyVal → Except String String
  | .dict fields =>
    match fields.find? (fun p => p.1 == "query") with
    | some (_, .str s) => .ok s
    | some _ => .error "query: Input should be a valid string"
    | none => .error "query: Field required"
  | _ => .error "body: Input should be a valid dictionary"

/-- POST /api/chat: parse the body (422 on failure), then inside one
try/except run get_demo_response in demo mode — its dict result — or
run_agent otherwise — its plain-string result — and build the
ChatResponse from it; any exception becomes a 500 with detail str(e). -/
def serverChat (env : Env) (search : String → Nat → List Doc)
    (llm : String → String) (body : PyVal) : HttpResult :=
  match parseQueryRequest body with
  | .error e => .error 422 e
  | .ok query =>
    chatWith
      (fun q =>
        if DEMO_MODE env then
          let r := get_demo_response q
          .ok (.dict [("response", .str r.response),
                      ("sources", .list (r.sources.map (fun s =>
                        .dict [("ref", .str s.ref),
                               ("document", .str s.document),
                               ("page", .str s.page),
                               ("content_preview", .str s.content_preview)])))])
        else
          (run_agent search llm q).map PyVal.str)
      query

/-! ### The ingestion batch (src/backend/ingest.py) -/

/-- Where ingest_data stops: after creating the missing data directory,
after finding no documents, after finding PINECONE_API_KEY falsy, or
after a completed upload. -/
inductive IngestStop where
  | createdDataDir
  | noDocuments
  | missingPineconeKey
  | completed
deriving DecidableEq, Repr

/-- The observable outcome of ingest_data: the vector index content
afterwards, where the run stopped, and whether the data directory
exists afterwards. -/
structure IngestOutcome where
  index : List Doc
  stop : IngestStop
  dataDirAfter : Bool
deriving DecidableEq, Repr

/-- ingest_data: if the data directory is missing, create it and return;
load the PDFs and return if none were found; split them into chunks;
if PINECONE_API_KEY is falsy, return before uploading; otherwise upsert
the chunks into the index. `docs` are the documents the loader finds,
`split` the semantic chunker, `index` the vector index content before
the run. -/
def ingest_data (dataDirExists : Bool) (docs : List Doc)
    (split : List Doc → List Doc) (pineconeKey : Option String)
    (index : List Doc) : IngestOutcome :=
  if !dataDirExists then ⟨index, .createdDataDir, true⟩
  else if docs.isEmpty then ⟨index, .noDocuments, true⟩
  else
    let chunks := split docs
    if !pyTruthy pineconeKey then ⟨index, .missingPineconeKey, true⟩
    else ⟨index ++ chunks, .completed, true⟩

/-- The wording of the spec for the demo fallback, as a recursive scan:
walk the table in entry order, skip the "default" entry, return the
response/sources of the first entry one of whose keywords occurs in the
lowered query; when no entry matches, return the response/sources of the
default entry. Compared against get_demo_response (claim C2). -/
def demoScanSpec (ql : List Char) : List DemoEntry → DemoResult
  | [] => ⟨defaultEntry.response, defaultEntry.sources⟩
  | e :: rest =>
    if e.key != "default" &&
        e.query_match.any (fun keyword => substrMatch keyword.data ql) then
      ⟨e.response, e.sources⟩
    else demoScanSpec ql rest

/-! ## Theorems -/

/-- Helper: the find?-based lookup of get_demo_response equals the
ordered first-match scan of the spec, on any entry list. -/
theorem demoScan_of_find (ql : List Char) (l : List DemoEntry) :
    (match l.find? (fun e => e.key != "default" &&
        e.query_match.any (fun keyword => substrMatch keyword.data ql)) with
      | some e => (⟨e.response, e.sources⟩ : DemoResult)
      | none => ⟨defaultEntry.response, defaultEntry.sources⟩) = demoScanSpec ql l := by
  induction l with
  | nil => rfl
  | cons e rest ih =>
    by_cases h : (e.key != "default" &&
        e.query_match.any (fun keyword => substrMatch keyword.data ql)) = true
    · rw [List.find?_cons_of_pos]
      · rw [demoScanSpec, if_pos h]
      · exact h
    · rw [List.find?_cons_of_neg]
      · rw [demoScanSpec, if_neg h]
        exact ih
      · simpa using h

/-- Helper: get_demo_response is the ordered first-match scan of
DEMO_RESPONSES. -/
theorem get_demo_response_eq_scan (q : String) :
    get_demo_response q = demoScanSpec (lowerChars q) DEMO_RESPONSES :=
  demoScan_of_find (lowerChars q) DEMO_RESPONSES

set_option maxRecDepth 1000000 in
/-- Helper: every value of get_demo_response is the response/sources
pair of some entry of DEMO_RESPONSES (the default entry is itself in
the table). -/
theorem get_demo_response_mem (q : String) :
    ∃ e ∈ DEMO_RESPONSES, get_demo_response q = ⟨e.response, e.sources⟩ := by
  show ∃ e ∈ DEMO_RESPONSES,
    (match DEMO_RESPONSES.find? (fun e => e.key != "default" &&
        e.query_match.any (fun keyword => substrMatch keyword.data (lowerChars q))) with
      | some e => (⟨e.response, e.sources⟩ : DemoResult)
      | none => ⟨defaultEntry.response, defaultEntry.sources⟩) = ⟨e.response, e.sources⟩
  cases hf : DEMO_RESPONSES.find? (fun e => e.key != "default" &&
      e.query_match.any (fun keyword => substrMatch keyword.data (lowerChars q))) with
  | some e => exact ⟨e, List.mem_of_find?_eq_some hf, rfl⟩
  | none => exact ⟨defaultEntry, by decide, rfl⟩

/-- C1: in production mode the chat endpoint consumes the plain string
returned by run_agent as if it were a record, so
`result["response"]` raises a TypeError and every production request is
answered with HTTP 500 — never with the declared response/sources body.
The first conjunct is the production branch of the endpoint over any
vector search, llm and query; the second the full endpoint at a
production environment (both credentials set). -/
theorem chat_production_raises (search : String → Nat → List Doc)
    (llm : String → String) (q : String) :
    chatWith (fun q2 => (run_agent search llm q2).map PyVal.str) q =
      .error 500 "string indices must be integers" ∧
    serverChat ⟨some "g", some "p"⟩ search llm (.dict [("query", .str q)]) =
      .error 500 "string indices must be integers" :=
  ⟨rfl, rfl⟩

set_option maxRecDepth 1000000 in
/-- C2: get_demo_response is the ordered first-match scan over
DEMO_RESPONSES skipping the default entry, falling back to the default
entry; and any query whose lowering contains "yield strength" or "a106"
gets the response and (non-empty) sources of the first entry. -/
theorem demo_fallback_matching (q : String) :
    get_demo_response q = demoScanSpec (lowerChars q) DEMO_RESPONSES ∧
    ((substrMatch ("yield strength".data) (lowerChars q) = true ∨
      substrMatch ("a106".data) (lowerChars q) = true) →
      get_demo_response q = ⟨yieldStrengthEntry.response, yieldStrengthEntry.sources⟩ ∧
      yieldStrengthEntry.sources ≠ []) := by
  refine ⟨get_demo_response_eq_scan q, fun h => ⟨?_, by decide⟩⟩
  have hpred : (yieldStrengthEntry.key != "default" &&
      yieldStrengthEntry.query_match.any
        (fun keyword => substrMatch keyword.data (lowerChars q))) = true := by
    have hkey : (yieldStrengthEntry.key != "default") = true := by decide
    have hany : yieldStrengthEntry.query_match.any
        (fun keyword => substrMatch keyword.data (lowerChars q)) = true := by
      show (substrMatch ("yield strength".data) (lowerChars q) ||
        (substrMatch ("a106".data) (lowerChars q) ||
          (substrMatch ("grade b".data) (lowerChars q) || false))) = true
      rcases h with h | h <;> simp [h]
    rw [hkey, hany]; rfl
  show (match DEMO_RESPONSES.find? (fun e => e.key != "default" &&
      e.query_match.any (fun keyword => substrMatch keyword.data (lowerChars q))) with
    | some e => (⟨e.response, e.sources⟩ : DemoResult)
    | none => ⟨defaultEntry.response, defaultEntry.sources⟩) = _
  rw [show DEMO_RESPONSES = yieldStrengthEntry ::
      [naceEntry, compareEntry, hardnessEntry, a333Entry, defaultEntry] from rfl]
  rw [List.find?_cons_of_pos]
  exact hpred

set_option maxRecDepth 1000000 in
/-- Witness for C2 at the concrete query "Tell me about A106 please". -/
theorem demo_fallback_matching_witness :
    get_demo_response "Tell me about A106 please" =
      ⟨yieldStrengthEntry.response, yieldStrengthEntry.sources⟩ ∧
    yieldStrengthEntry.sources ≠ [] :=
  (demo_fallback_matching "Tell me about A106 please").2 (Or.inr (by decide))

/-- C3: when the response-producing function raises, the chat endpoint
answers HTTP 500 with the exception message as detail; and the outcome
depends only on the single value the producer returns for the request
query — the producer is consulted once, with no retry. -/
theorem chat_error_surfaces_500 (producer : String → Except String PyVal)
    (query e : String) (h : producer query = .error e) :
    chatWith producer query = .error 500 e ∧
    ∀ producer2 : String → Except String PyVal, producer2 query = producer query →
      chatWith producer2 query = chatWith producer query := by
  constructor
  · unfold chatWith
    rw [h]
    rfl
  · intro p2 h2
    unfold chatWith
    rw [h2]

/-- Witness for C3 with a producer that raises "Demo response failed". -/
theorem chat_error_surfaces_500_witness :
    chatWith (fun _ => .error "Demo response failed") "test query" =
      .error 500 "Demo response failed" :=
  (chat_error_surfaces_500 (fun _ => .error "Demo response failed")
    "test query" "Demo response failed" rfl).1

/-- C4 counterexample: with GOOGLE_API_KEY set to the empty string and
PINECONE_API_KEY set to "key", neither variable is absent from the
environment, yet /health reports mode "demo" — Python truthiness treats
the empty string like an absent variable, against the claim that demo
mode holds exactly when a credential is absent. -/
theorem health_mode_absent_counterexample :
    (health ⟨some "", some "key"⟩).mode = "demo" ∧
    (⟨some "", some "key"⟩ : Env).google ≠ none ∧
    (⟨some "", some "key"⟩ : Env).pinecone ≠ none := by decide

/-- C4 amended: /health always returns status "ok" and version "1.0.0",
and mode "demo" exactly when GOOGLE_API_KEY or PINECONE_API_KEY is
absent or set to the empty string, "production" otherwise; the mode is a
function of the environment fixed at process start only. -/
theorem health_always_ok (env : Env) :
    (health env).status = "ok" ∧ (health env).version = "1.0.0" ∧
    ((health env).mode = "demo" ↔
      (env.google = none ∨ env.google = some "" ∨
       env.pinecone = none ∨ env.pinecone = some "")) ∧
    ((health env).mode = "demo" ∨ (health env).mode = "production") := by
  obtain ⟨g, p⟩ := env
  refine ⟨rfl, rfl, ?_, ?_⟩
  · cases g with
    | none => cases p <;> simp [health, DEMO_MODE, pyTruthy]
    | some s =>
      cases p with
      | none => simp [health, DEMO_MODE, pyTruthy]
      | some t =>
        by_cases hs : s = "" <;> by_cases ht : t = "" <;>
          simp [health, DEMO_MODE, pyTruthy, hs, ht]
  · unfold health
    by_cases hd : DEMO_MODE ⟨g, p⟩ = true
    · rw [if_pos hd]; exact Or.inl rfl
    · rw [if_neg hd]; exact Or.inr rfl

/-- C5: whenever the state has a last message, the retrieve node
succeeds and its context is the retrieved page_content texts joined in
ranked order by a blank line; zero retrieved passages give the empty
context, still a success. -/
theorem retrieve_context_join (search : String → Nat → List Doc)
    (state : AgentState) (m : String) (h : state.messages.getLast? = some m) :
    retrieve search state =
      .ok ⟨String.intercalate "\n\n" ((search m 5).map Doc.page_content)⟩ ∧
    (search m 5 = [] → retrieve search state = .ok ⟨""⟩) := by
  have h1 : retrieve search state =
      .ok ⟨String.intercalate "\n\n" ((search m 5).map Doc.page_content)⟩ := by
    unfold retrieve
    rw [h]
  refine ⟨h1, fun hs => ?_⟩
  rw [h1, hs]
  rfl

/-- Witness for C5: a search returning no passage yields the empty
context without error. -/
theorem retrieve_context_join_witness :
    retrieve (fun _ _ => []) ⟨["q"], ""⟩ = .ok ⟨""⟩ :=
  (retrieve_context_join (fun _ _ => []) ⟨["q"], ""⟩ "q" rfl).2 rfl

/-- C6: run_agent is the fixed retrieve-then-generate sequence: it
searches the vector store with the query (the most recent message),
builds the one prompt embedding the fixed system role, the joined
context and the query, makes one llm call and returns that completion
content verbatim. -/
theorem run_agent_pipeline (search : String → Nat → List Doc)
    (llm : String → String) (q : String) :
    run_agent search llm q =
      .ok (llm (promptFor
        (String.intercalate "\n\n" ((search q 5).map Doc.page_content)) q)) :=
  rfl

set_option maxRecDepth 1000000 in
/-- C7: a chat request whose body is the object with an empty "query"
string passes validation, and in demo mode returns HTTP 200 with the
response/sources of the default entry, since the empty query contains
no keyword. -/
theorem chat_empty_query_default (env : Env) (search : String → Nat → List Doc)
    (llm : String → String) (h : DEMO_MODE env = true) :
    serverChat env search llm (.dict [("query", .str "")]) =
      .ok ⟨defaultEntry.response, defaultEntry.sources⟩ := by
  unfold serverChat chatWith
  simp only [h, if_true]
  decide

set_option maxRecDepth 1000000 in
/-- Witness for C7 in the credentialless demo environment. -/
theorem chat_empty_query_default_witness :
    serverChat ⟨none, none⟩ (fun _ _ => []) (fun p => p)
      (.dict [("query", .str "")]) =
      .ok ⟨defaultEntry.response, defaultEntry.sources⟩ :=
  chat_empty_query_default ⟨none, none⟩ (fun _ _ => []) (fun p => p) rfl

/-- C8: loading the agent module with GOOGLE_API_KEY absent raises
ValueError("GOOGLE_API_KEY missing"); the server imports the agent
module only when both credentials are present (and then that import
succeeds); in demo mode the server starts without touching the agent
module, so the failure never triggers there. -/
theorem agent_fail_fast (env : Env) :
    (env.google = none → agentModuleInit env = .error "GOOGLE_API_KEY missing") ∧
    (serverImportsAgent env = true →
      env.google ≠ none ∧ env.pinecone ≠ none ∧ agentModuleInit env = .ok ()) ∧
    (DEMO_MODE env = true → serverModuleInit env = .ok ()) := by
  obtain ⟨g, p⟩ := env
  refine ⟨fun hg => ?_, fun hi => ?_, fun hd => ?_⟩
  · subst hg; rfl
  · have hmode : DEMO_MODE ⟨g, p⟩ = false := by
      simpa [serverImportsAgent] using hi
    simp only [DEMO_MODE, Bool.or_eq_false_iff, Bool.not_eq_true'] at hmode
    obtain ⟨hg, hp⟩ := hmode
    refine ⟨?_, ?_, ?_⟩
    · cases g with
      | none => simp [pyTruthy] at hg
      | some s => exact fun hc => by cases hc
    · cases p with
      | none => simp [pyTruthy] at hp
      | some s => exact fun hc => by cases hc
    · unfold agentModuleInit
      rw [hg]
      rfl
  · unfold serverModuleInit serverImportsAgent
    rw [hd]
    rfl

/-- Witness for C8: GOOGLE_API_KEY absent makes the agent module raise,
while the server in (forced) demo mode still starts. -/
theorem agent_fail_fast_witness :
    agentModuleInit ⟨none, some "key"⟩ = .error "GOOGLE_API_KEY missing" ∧
    serverModuleInit ⟨none, some "key"⟩ = .ok () :=
  ⟨(agent_fail_fast ⟨none, some "key"⟩).1 rfl,
   (agent_fail_fast ⟨none, some "key"⟩).2.2 rfl⟩

/-- C9: ingest_data returns without raising on each reported failure
case — missing data directory (created, then stop), zero loaded
documents (stop, chunker never consulted), falsy PINECONE_API_KEY
(stop before upload) — and in each such case the vector index is left
unchanged and the run never reaches completion. -/
theorem ingest_failure_cases_no_op (dataDirExists : Bool) (docs : List Doc)
    (split : List Doc → List Doc) (pineconeKey : Option String)
    (index : List Doc) :
    (dataDirExists = false →
      ingest_data dataDirExists docs split pineconeKey index =
        ⟨index, .createdDataDir, true⟩) ∧
    (dataDirExists = true → docs = [] →
      ingest_data dataDirExists docs split pineconeKey index =
        ⟨index, .noDocuments, true⟩ ∧
      ∀ split2, ingest_data dataDirExists docs split2 pineconeKey index =
        ingest_data dataDirExists docs split pineconeKey index) ∧
    (pyTruthy pineconeKey = false →
      (ingest_data dataDirExists docs split pineconeKey index).index = index ∧
      (ingest_data dataDirExists docs split pineconeKey index).stop ≠ .completed) := by
  refine ⟨fun hdir => ?_, fun hdir hdocs => ?_, fun hkey => ?_⟩
  · subst hdir; rfl
  · subst hdir hdocs
    exact ⟨rfl, fun split2 => rfl⟩
  · cases dataDirExists with
    | false => exact ⟨rfl, fun hc => nomatch hc⟩
    | true =>
      cases hd : docs.isEmpty with
      | true => simp [ingest_data, hd]
      | false => simp [ingest_data, hd, hkey]

/-- Witness for C9: a missing data directory and a missing
PINECONE_API_KEY both leave the (empty) index untouched. -/
theorem ingest_failure_cases_no_op_witness :
    ingest_data false [] (fun l => l) none [] = ⟨[], .createdDataDir, true⟩ ∧
    (ingest_data true [⟨"chunk"⟩] (fun l => l) none []).index = [] ∧
    (ingest_data true [⟨"chunk"⟩] (fun l => l) none []).stop ≠ .completed :=
  ⟨(ingest_failure_cases_no_op false [] (fun l => l) none []).1 rfl,
   ((ingest_failure_cases_no_op true [⟨"chunk"⟩] (fun l => l) none []).2.2 rfl).1,
   ((ingest_failure_cases_no_op true [⟨"chunk"⟩] (fun l => l) none []).2.2 rfl).2⟩

set_option maxRecDepth 1000000 in
/-- C10: get_demo_response is total and every value it returns has a
non-empty response, a non-empty source list, and only sources whose
ref, document, page and content_preview fields are non-empty — every
demo answer cites at least one source. -/
theorem demo_sources_nonempty (q : String) :
    (get_demo_response q).response ≠ "" ∧
    (get_demo_response q).sources ≠ [] ∧
    ∀ s ∈ (get_demo_response q).sources,
      s.ref ≠ "" ∧ s.document ≠ "" ∧ s.page ≠ "" ∧ s.content_preview ≠ "" := by
  have hall : ∀ e ∈ DEMO_RESPONSES, e.response ≠ "" ∧ e.sources ≠ [] ∧
      ∀ s ∈ e.sources,
        s.ref ≠ "" ∧ s.document ≠ "" ∧ s.page ≠ "" ∧ s.content_preview ≠ "" := by decide
  obtain ⟨e, he, hq⟩ := get_demo_response_mem q
  rw [hq]
  exact hall e he

end SteelAgent
